import Mathlib

/-!
Verification of the retrieval-and-answer pipeline of the chatbot repository.

The definitions below are a shallow embedding of the Python sources:

* `simple_search`, `get_snippet`, `search_documents_only`, `get_ai_response`
  and `get_answer` embed the functions of the same names in
  `rag_agent_safe.py` (the keyword-only search and the tiered generation
  orchestrator with its document fallback).
* `robust_get_answer` embeds `get_answer` of `rag_agent_robust.py`
  (the variant with an explicit 2-second backoff between quota-limited
  generation tiers).
* `rag_get_answer` embeds `get_answer` of `rag_agent.py`.

External effects are made explicit:

* the document corpus (Python `load_documents`, a cached read of the `data`
  directory) is passed as a `List Doc` argument;
* the generative backend (`google.generativeai` / `agno` agent calls) is a
  function argument producing a `GenOutcome` (returned text, raised
  exception message, or falsy response object);
* environment conditions (library importable, API key present) are Bool
  arguments;
* observable side effects (retrieval calls, generation calls, `time.sleep`)
  are collected in an `Event` trace returned next to the answer string.

Strings are Lean `String`s; the Python string operations used by the source
(`lower`, `strip`, `split`, `count`, `in`, `startswith`, slicing, `join`)
are modelled character-exactly on `String.data` below (lower-casing via
`Char.toLower`, i.e. exact on ASCII input).
-/

/-- Python `str.lower()` (ASCII-exact, via `Char.toLower`). -/
def pyLower (s : String) : String :=
  ⟨s.data.map Char.toLower⟩

/-- Python `str.strip()`: remove leading and trailing whitespace. -/
def pyStrip (s : String) : String :=
  ⟨((s.data.dropWhile Char.isWhitespace).reverse.dropWhile Char.isWhitespace).reverse⟩

/-- Python `str.split()` (no argument): split on runs of whitespace,
dropping empty pieces.  `acc` holds the current word reversed. -/
def splitWsAux : List Char → List Char → List (List Char)
  | [], acc => if acc.isEmpty then [] else [acc.reverse]
  | c :: rest, acc =>
    if c.isWhitespace then
      if acc.isEmpty then splitWsAux rest [] else acc.reverse :: splitWsAux rest []
    else
      splitWsAux rest (c :: acc)

/-- Python `str.split()` on the character list of a string. -/
def splitWs (s : List Char) : List (List Char) :=
  splitWsAux s []

/-- Python `needle in hay` substring test (on character lists). -/
def substrB (needle : List Char) : List Char → Bool
  | [] => needle.isEmpty
  | c :: rest => needle.isPrefixOf (c :: rest) || substrB needle rest

/-- Python `hay.count(needle)` for a non-empty `needle`: greedy
left-to-right count of non-overlapping occurrences.  After a match the
scan skips the matched characters (`skip` counts characters still to be
skipped). -/
def countOccAux (w : List Char) : List Char → Nat → Nat
  | [], _ => 0
  | c :: rest, 0 =>
    if w.isPrefixOf (c :: rest) then 1 + countOccAux w rest (w.length - 1)
    else countOccAux w rest 0
  | _ :: rest, skip + 1 => countOccAux w rest skip

/-- Python `hay.count(needle)` (the empty needle matches at every gap). -/
def pyCount (w hay : List Char) : Nat :=
  if w.isEmpty then hay.length + 1 else countOccAux w hay 0

/-- Python `s.startswith(p)`. -/
def strStarts (s p : String) : Bool :=
  p.data.isPrefixOf s.data

/-- Python `needle in hay` on strings. -/
def strInfix (needle hay : String) : Bool :=
  substrB needle.data hay.data

/-- Python `sep.join(parts)`. -/
def strJoin (sep : String) : List String → String
  | [] => ""
  | [x] => x
  | x :: y :: rest => x ++ sep ++ strJoin sep (y :: rest)

/-- A loaded document, as produced by `load_documents` in
`rag_agent_safe.py`: a dict with a filename key and a content key. -/
structure Doc where
  filename : String
  content : String
deriving DecidableEq, Repr

/-- An entry of the list returned by `simple_search` in `rag_agent_safe.py`:
the document dict extended with its `score` and `snippet` keys. -/
structure ScoredDoc where
  doc : Doc
  score : Nat
  snippet : String
deriving DecidableEq, Repr

/-- Observable side effects of one `get_answer` call: a call into the
search backend, a call into a generative model, or a `time.sleep`. -/
inductive Event where
  | retrieve (query : String) (limit : Nat)
  | generate (model : String)
  | sleep (units : Nat)
deriving DecidableEq, Repr

/-- Outcome of one call into the generative backend: a response carrying
text, a raised exception with message `msg`, or a falsy/absent response
object. -/
inductive GenOutcome where
  | ok (text : String)
  | err (msg : String)
  | noReply
deriving DecidableEq, Repr

/-- Embeds `get_snippet(content, query_words, snippet_length=300)` of
`rag_agent_safe.py`: pick the window of 300 characters (stepping by 50)
with the most query-word occurrences, and mark elided ends with `...`. -/
def get_snippet (content : String) (query_words : List (List Char)) : String :=
  let sl : Nat := 300
  let contentChars := content.data
  let content_lower := contentChars.map Char.toLower
  -- `range(0, len(content) - snippet_length, 50)` (empty when the
  -- difference is not positive, exactly as in Python)
  let n := contentChars.length - sl
  let positions := (List.range ((n + 49) / 50)).map (· * 50)
  let best := positions.foldl
    (fun (b : Nat × Nat) i =>
      let sec := (content_lower.drop i).take sl
      let s := query_words.foldl (fun a w => a + pyCount w sec) 0
      if s > b.1 then (s, i) else b)
    (0, 0)
  let best_pos := best.2
  let snippetS : String := ⟨(contentChars.drop best_pos).take sl⟩
  let s1 := if best_pos > 0 then "..." ++ snippetS else snippetS
  if best_pos + sl < contentChars.length then s1 ++ "..." else s1

/-- The per-document score computed inside the loop of `simple_search` in
`rag_agent_safe.py`: starts at 50 for an exact phrase match, then for each
query word adds `count * 5` plus 10 if the word occurs in the filename. -/
def searchScore (query : String) (d : Doc) : Nat :=
  let query_lower := pyLower query
  let query_words := (splitWs query_lower.data).filter (fun w => w.length > 2)
  let content_lower := (pyLower d.content).data
  let filename_lower := (pyLower d.filename).data
  query_words.foldl
    (fun score w =>
      score + pyCount w content_lower * 5 +
        (if substrB w filename_lower then 10 else 0))
    (if substrB query_lower.data content_lower then 50 else 0)

/-- Embeds `simple_search(query, documents, limit=3)` of `rag_agent_safe.py`:
score every document, keep the strictly positive scores (each extended
with its snippet), sort by descending score — Python `list.sort` is
stable, rendered here by insertion sort with ties kept in original
order — and return the first `limit`. -/
def simple_search (query : String) (documents : List Doc) (limit : Nat) : List ScoredDoc :=
  if documents.isEmpty then []
  else
    let query_lower := pyLower query
    let query_words := (splitWs query_lower.data).filter (fun w => w.length > 2)
    let scored := documents.filterMap
      (fun doc =>
        let score := searchScore query doc
        if score > 0 then
          some ⟨doc, score, get_snippet doc.content query_words⟩
        else none)
    (scored.insertionSort (fun a b => b.score ≤ a.score)).take limit

/-- The keyword search as the specification words it: `score = 50·[exact
phrase match] + 5·Σ(word occurrence count) + 10·[word appears in
sourceName]` per lowercased query word of length > 2; discard score 0;
stable descending sort; top `limit`.  Used to state the refinement
theorem for `simple_search`. -/
def specScore (query : String) (d : Doc) : Nat :=
  let ql := pyLower query
  let ws := (splitWs ql.data).filter (fun w => w.length > 2)
  (if substrB ql.data (pyLower d.content).data then 50 else 0)
    + 5 * (ws.map (fun w => pyCount w (pyLower d.content).data)).sum
    + 10 * (ws.filter (fun w => substrB w (pyLower d.filename).data)).length

/-- Spec-side keyword retrieval returning (chunk, score) pairs. -/
def specSearch (query : String) (documents : List Doc) (limit : Nat) : List (Doc × Nat) :=
  let scored := (documents.map (fun d => (d, specScore query d))).filter (fun p => p.2 > 0)
  (scored.insertionSort (fun a b => b.2 ≤ a.2)).take limit

/-- Embeds `search_documents_only(question, limit=3)` of `rag_agent_safe.py`:
search and return the formatted result listing (the per-result part uses
the `snippet` key, which `simple_search` always sets). -/
def formatParts : Nat → List ScoredDoc → List String
  | _, [] => []
  | i, [d] =>
    ["**📋 Result " ++ toString i ++ " (from " ++ d.doc.filename ++ "):**\n" ++ d.snippet ++ "\n"]
  | i, d :: rest =>
    ("**📋 Result " ++ toString i ++ " (from " ++ d.doc.filename ++ "):**\n" ++ d.snippet ++ "\n")
      :: "---\n" :: formatParts (i + 1) rest

/-- Embeds `search_documents_only` of `rag_agent_safe.py` (the corpus, read by
`load_documents` in the source, is the `documents` argument; the body is
pure, so its `except` branch is unreachable). -/
def search_documents_only (question : String) (documents : List Doc) (limit : Nat) : String :=
  if documents.isEmpty then
    "❌ No documents available for search. Please ensure text files are in the data directory."
  else
    let results := simple_search question documents limit
    if results.isEmpty then
      "❌ No relevant information found for: \x27" ++ question ++
        "\x27\n\nTry rephrasing your question or asking about a different topic."
    else
      let header := "📄 **Found " ++ toString results.length ++ " relevant document(s):**\n"
      strJoin "\n" (header :: formatParts 1 results)

/-- The model cascade `models_to_try` of `get_ai_response` in
`rag_agent_safe.py`. -/
def models_to_try : List String :=
  ["gemini-1.5-flash", "gemini-1.5-pro", "gemini-pro"]

/-- Quota/rate-limit classification of `rag_agent_safe.py`
(`any(term in error_str for term in [...])` on the lowercased message). -/
def isQuotaSafe (msg : String) : Bool :=
  ["quota", "rate limit", "resource_exhausted"].any
    (fun t => substrB t.data (pyLower msg).data)

/-- The grounding prompt built inside `get_ai_response` of
`rag_agent_safe.py`. -/
def safePrompt (context question : String) : String :=
  "You are a helpful assistant that answers questions based on provided document context.\n\nContext from support documents:\n"
    ++ context
    ++ "\n\nUser Question: "
    ++ question
    ++ "\n\nPlease provide a helpful, accurate answer based on the context above. If the context doesn\x27t contain enough information to fully answer the question, say so and provide what information you can find.\n\nAnswer:"

/-- The model-cascade loop of `get_ai_response` in `rag_agent_safe.py`.
`backend model prompt` is the outcome of `model.generate_content(prompt)`;
`lastName` is `models_to_try[-1]`.  A response with non-empty text is
returned at once; a falsy/empty response falls through to the next model;
a quota-classified exception falls through unless this is the last model,
which instead returns the busy sentinel; any other exception falls
through.  After the loop the unavailable sentinel is returned. -/
def get_ai_response_loop (backend : String → String → GenOutcome) (lastName prompt : String) :
    List String → String × List Event
  | [] => ("❌ All AI models are currently unavailable.", [])
  | m :: rest =>
    match backend m prompt with
    | .ok t =>
      if t = "" then
        let r := get_ai_response_loop backend lastName prompt rest
        (r.1, .generate m :: r.2)
      else (t, [.generate m])
    | .noReply =>
      let r := get_ai_response_loop backend lastName prompt rest
      (r.1, .generate m :: r.2)
    | .err msg =>
      if isQuotaSafe msg then
        if m ≠ lastName then
          let r := get_ai_response_loop backend lastName prompt rest
          (r.1, .generate m :: r.2)
        else
          ("🤖 AI service is currently busy. Here\x27s what I found in the documents instead.",
            [.generate m])
      else
        let r := get_ai_response_loop backend lastName prompt rest
        (r.1, .generate m :: r.2)

/-- Embeds `get_ai_response(question, context)` of `rag_agent_safe.py`.  `libOk`
models the `import google.generativeai` succeeding, `apiKey` models
`get_api_credentials()` finding a key. -/
def get_ai_response (libOk apiKey : Bool) (backend : String → String → GenOutcome)
    (context question : String) : String × List Event :=
  if !libOk then ("❌ Google AI library not available.", [])
  else if !apiKey then
    ("❌ Google API key not found. Please configure it in Streamlit secrets.", [])
  else
    get_ai_response_loop backend (models_to_try.getLastD "") (safePrompt context question)
      models_to_try

/-- The context string built in `get_answer` of `rag_agent_safe.py`
(`From {filename}:\n{snippet}` joined by blank lines; the `snippet` key is
always present on `simple_search` results). -/
def safeContext (relevant : List ScoredDoc) : String :=
  strJoin "\n\n" (relevant.map (fun d => "From " ++ d.doc.filename ++ ":\n" ++ d.snippet))

/-- Embeds `get_answer(question)` of `rag_agent_safe.py`, returning the answer
string together with the trace of backend events (searches and generation
calls).  The corpus and the generation backend are explicit arguments. -/
def get_answer (question : String) (documents : List Doc) (libOk apiKey : Bool)
    (backend : String → String → GenOutcome) : String × List Event :=
  if pyStrip question = "" then ("❌ Please ask a valid question.", [])
  else
    let q := pyStrip question
    if documents.isEmpty then
      ("❌ No documents available. Please ensure text files are in the data directory.", [])
    else
      let relevant := simple_search q documents 3
      if relevant.isEmpty then
        ("❌ No relevant information found for: \x27" ++ q ++ "\x27", [Event.retrieve q 3])
      else
        let ai := get_ai_response libOk apiKey backend (safeContext relevant) q
        if ai.1 ≠ "" ∧ strStarts ai.1 "❌" = false ∧
            strStarts ai.1 "🤖 AI service is currently busy" = false then
          (ai.1, Event.retrieve q 3 :: ai.2)
        else
          ("🤖 AI assistant is currently unavailable. Here\x27s what I found in the documents:\n\n"
              ++ search_documents_only q documents 3,
            (Event.retrieve q 3 :: ai.2) ++ [Event.retrieve q 3])

/-- Quota/rate-limit classification of `rag_agent_robust.py` (its
`quota_errors` list). -/
def isQuotaRobust (msg : String) : Bool :=
  ["quota", "rate limit", "resource_exhausted", "too many requests", "limit exceeded"].any
    (fun t => substrB t.data (pyLower msg).data)

/-- The retry loop of `get_answer` in `rag_agent_robust.py`
(`for attempt in range(max_retries + 1)`), instrumented with its
`time.sleep` calls.  `fuel` is the number of loop iterations still
allowed (`max_retries + 1 - attempt`); running out of fuel is the
post-loop document fallback.  `backend attempt` is the outcome of
`agent.run(question)` on that attempt; `fb` is the string produced by the
`search_documents_only` of that file (whose vector knowledge base is an
external collaborator). -/
def robustLoop (models : List String) (max_retries : Nat) (backend : Nat → GenOutcome)
    (fb : String) : Nat → Nat → String × List Event
  | 0, _ =>
    ("🤖 AI response unavailable. Here\x27s what I found in the documents:\n\n" ++ fb, [])
  | fuel + 1, attempt =>
    let name := models.getD (min attempt (models.length - 1)) ""
    match backend attempt with
    | .ok t =>
      if t ≠ "" then (t, [Event.generate name])
      else if attempt < max_retries then
        let r := robustLoop models max_retries backend fb fuel (attempt + 1)
        (r.1, Event.generate name :: r.2)
      else
        ("🤖 AI response unavailable. Here\x27s what I found in the documents:\n\n" ++ fb,
          [Event.generate name])
    | .noReply =>
      if attempt < max_retries then
        let r := robustLoop models max_retries backend fb fuel (attempt + 1)
        (r.1, Event.generate name :: r.2)
      else
        ("🤖 AI response unavailable. Here\x27s what I found in the documents:\n\n" ++ fb,
          [Event.generate name])
    | .err msg =>
      if isQuotaRobust msg then
        if attempt < models.length - 1 then
          let r := robustLoop models max_retries backend fb fuel (attempt + 1)
          (r.1, Event.generate name :: Event.sleep 2 :: r.2)
        else
          ("🤖 AI services are currently busy. Here\x27s what I found in the documents:\n\n" ++ fb,
            [Event.generate name])
      else if attempt < max_retries then
        let r := robustLoop models max_retries backend fb fuel (attempt + 1)
        (r.1, Event.generate name :: Event.sleep 1 :: r.2)
      else
        -- `raise model_error`, caught by the outer handler
        ("❌ AI system error: " ++ msg ++ "\n\nTrying document search instead:\n\n" ++ fb,
          [Event.generate name])

/-- Embeds `get_answer(question, max_retries=2)` of `rag_agent_robust.py`.
`agentOk` models `initialize_agent()` returning a usable agent. -/
def robust_get_answer (question : String) (agentOk : Bool) (models : List String)
    (max_retries : Nat) (backend : Nat → GenOutcome) (fb : String) : String × List Event :=
  if pyStrip question = "" then ("❌ Please ask a valid question.", [])
  else if !agentOk || models.isEmpty then (fb, [])
  else robustLoop models max_retries backend fb (max_retries + 1) 0

/-- Embeds `get_answer(question)` of `rag_agent.py`: try the two configured
models in order; a truthy reply returns its `.content.strip()`; every
exception (quota-classified or not) and every falsy reply advances to the
next model; when both models are done, fall back to `fb`, the output of
the `search_documents_only` of that module (whose vector store is an
external collaborator). -/
def rag_get_answer (backend : Nat → GenOutcome) (fb : String) : String :=
  match backend 0 with
  | .ok t => pyStrip t
  | _ =>
    match backend 1 with
    | .ok t => pyStrip t
    | _ => fb

/-! ### Helper lemmas about the string primitives -/

theorem strAppend_ne_empty_left (a b : String) (h : a ≠ "") : a ++ b ≠ "" := by
  intro he
  apply h
  apply String.ext
  have hd : (a ++ b).data = ("" : String).data := by rw [he]
  rw [String.data_append] at hd
  have : a.data = [] := (List.append_eq_nil.mp hd).1
  simpa using this

theorem isPrefixOf_append_of_isPrefixOf (n h e : List Char)
    (hp : n.isPrefixOf h = true) : n.isPrefixOf (h ++ e) = true := by
  rw [List.isPrefixOf_iff_prefix] at hp ⊢
  exact hp.trans (List.prefix_append h e)

theorem substrB_of_isEmpty (n : List Char) (hn : n.isEmpty = true) :
    ∀ l, substrB n l = true := by
  intro l
  have hn2 : n = [] := by simpa using hn
  subst hn2
  cases l with
  | nil => rfl
  | cons c t => simp [substrB, List.isPrefixOf]

theorem substrB_append_right (n h e : List Char) (hs : substrB n h = true) :
    substrB n (h ++ e) = true := by
  induction h with
  | nil =>
    simp only [substrB] at hs
    simpa using substrB_of_isEmpty n hs e
  | cons c t ih =>
    simp only [substrB, Bool.or_eq_true] at hs
    rcases hs with hp | hs
    · show substrB n (c :: (t ++ e)) = true
      simp only [substrB, Bool.or_eq_true]
      exact Or.inl (isPrefixOf_append_of_isPrefixOf n (c :: t) e hp)
    · show substrB n (c :: (t ++ e)) = true
      simp only [substrB, Bool.or_eq_true]
      exact Or.inr (ih hs)

theorem substrB_self (b : List Char) : substrB b b = true := by
  cases b with
  | nil => rfl
  | cons c t =>
    simp only [substrB, Bool.or_eq_true]
    exact Or.inl (by rw [List.isPrefixOf_iff_prefix])

theorem substrB_append_left (a b : List Char) : substrB b (a ++ b) = true := by
  induction a with
  | nil => simpa using substrB_self b
  | cons c t ih =>
    show substrB b (c :: (t ++ b)) = true
    simp only [substrB, Bool.or_eq_true]
    exact Or.inr ih

theorem strStarts_append_self (a b : String) : strStarts (a ++ b) a = true := by
  unfold strStarts
  rw [String.data_append, List.isPrefixOf_iff_prefix]
  exact List.prefix_append a.data b.data

theorem strStarts_append_of_strStarts (a b p : String) (h : strStarts a p = true) :
    strStarts (a ++ b) p = true := by
  unfold strStarts at h ⊢
  rw [String.data_append]
  exact isPrefixOf_append_of_isPrefixOf p.data a.data b.data h

theorem strInfix_append_left (a b : String) : strInfix b (a ++ b) = true := by
  unfold strInfix
  rw [String.data_append]
  exact substrB_append_left a.data b.data

theorem data_getElem?_of_strStarts (s p : String) (i : Nat) (c : Char)
    (h : strStarts s p = true) (hp : p.data[i]? = some c) : s.data[i]? = some c := by
  unfold strStarts at h
  rw [List.isPrefixOf_iff_prefix] at h
  obtain ⟨t, ht⟩ := h
  have hi : i < p.data.length := by
    rcases List.getElem?_eq_some.mp hp with ⟨hlt, _⟩
    exact hlt
  rw [← ht, List.getElem?_append_left hi]
  exact hp

/-! ### Helper lemmas about `countOccAux` / `pyCount` -/

theorem countOccAux_eq_zero_of_short (w : List Char) :
    ∀ (h : List Char) (k : Nat), h.length < w.length + k → countOccAux w h k = 0 := by
  intro h
  induction h with
  | nil => intro k _; rfl
  | cons c t ih =>
    intro k hk
    cases k with
    | zero =>
      have hp : w.isPrefixOf (c :: t) = false := by
        by_contra hb
        have hb2 : w.isPrefixOf (c :: t) = true := by
          revert hb; cases w.isPrefixOf (c :: t) <;> simp
        rw [List.isPrefixOf_iff_prefix] at hb2
        have := hb2.length_le
        omega
      simp only [countOccAux, hp, Bool.false_eq_true, if_false]
      exact ih 0 (by simp at hk ⊢; omega)
    | succ s =>
      simp only [countOccAux]
      exact ih s (by simp at hk ⊢; omega)

theorem prefix_of_prefix_append (w l e : List Char) (hlen : w.length ≤ l.length)
    (hp : w.isPrefixOf (l ++ e) = true) : w.isPrefixOf l = true := by
  rw [List.isPrefixOf_iff_prefix] at hp ⊢
  rw [List.prefix_iff_eq_take] at hp ⊢
  rw [hp]
  rw [List.take_append_eq_append_take]
  have h0 : w.length - l.length = 0 := by omega
  rw [h0]
  simp

theorem countOccAux_le_append (w : List Char) :
    ∀ (h : List Char) (k : Nat) (e : List Char),
      countOccAux w h k ≤ countOccAux w (h ++ e) k := by
  intro h
  induction h with
  | nil => intro k e; simp [countOccAux]
  | cons c t ih =>
    intro k e
    cases k with
    | zero =>
      by_cases hp : w.isPrefixOf (c :: t) = true
      · have hp2 : w.isPrefixOf ((c :: t) ++ e) = true :=
          isPrefixOf_append_of_isPrefixOf w (c :: t) e hp
        show countOccAux w (c :: t) 0 ≤ countOccAux w (c :: (t ++ e)) 0
        simp only [countOccAux, hp, if_true]
        have hp3 : w.isPrefixOf (c :: (t ++ e)) = true := hp2
        simp only [hp3, if_true]
        have := ih (w.length - 1) e
        omega
      · have hpf : w.isPrefixOf (c :: t) = false := by
          revert hp; cases w.isPrefixOf (c :: t) <;> simp
        by_cases hp2 : w.isPrefixOf (c :: (t ++ e)) = true
        · -- the match straddles the boundary, so `w` is longer than `c :: t`
          have hlong : ¬ w.length ≤ (c :: t).length := by
            intro hle
            have := prefix_of_prefix_append w (c :: t) e hle hp2
            rw [this] at hpf
            exact Bool.true_eq_false.mp hpf
          show countOccAux w (c :: t) 0 ≤ countOccAux w (c :: (t ++ e)) 0
          simp only [countOccAux, hpf, Bool.false_eq_true, if_false, hp2, if_true]
          have hz : countOccAux w t 0 = 0 := by
            apply countOccAux_eq_zero_of_short
            simp at hlong ⊢
            omega
          rw [hz]
          exact Nat.zero_le _
        · have hp2f : w.isPrefixOf (c :: (t ++ e)) = false := by
            revert hp2; cases w.isPrefixOf (c :: (t ++ e)) <;> simp
          show countOccAux w (c :: t) 0 ≤ countOccAux w (c :: (t ++ e)) 0
          simp only [countOccAux, hpf, Bool.false_eq_true, if_false, hp2f]
          exact ih 0 e
    | succ s =>
      show countOccAux w (c :: t) (s + 1) ≤ countOccAux w (c :: (t ++ e)) (s + 1)
      simp only [countOccAux]
      exact ih s e

theorem pyCount_le_append (w h e : List Char) : pyCount w h ≤ pyCount w (h ++ e) := by
  unfold pyCount
  by_cases hw : w.isEmpty = true
  · simp [hw]
  · have hwf : w.isEmpty = false := by
      revert hw; cases w.isEmpty <;> simp
    simp only [hwf, Bool.false_eq_true, if_false]
    exact countOccAux_le_append w h 0 e

/-! ### The score accumulation of `simple_search` equals the closed formula -/

theorem foldl_score_eq (cl fl : List Char) :
    ∀ (ws : List (List Char)) (a : Nat),
      ws.foldl
          (fun score w =>
            score + pyCount w cl * 5 + (if substrB w fl then 10 else 0)) a
        = a + 5 * (ws.map (fun w => pyCount w cl)).sum
            + 10 * (ws.filter (fun w => substrB w fl)).length := by
  intro ws
  induction ws with
  | nil => intro a; simp
  | cons w rest ih =>
    intro a
    rw [List.foldl_cons, ih]
    by_cases hf : substrB w fl = true
    · simp only [List.map_cons, List.sum_cons, List.filter_cons, hf, if_true,
        List.length_cons]
      omega
    · have hff : substrB w fl = false := by
        revert hf; cases substrB w fl <;> simp
      simp only [List.map_cons, List.sum_cons, List.filter_cons, hff,
        Bool.false_eq_true, if_false]
      omega

theorem searchScore_eq_specScore (query : String) (d : Doc) :
    searchScore query d = specScore query d := by
  unfold searchScore specScore
  rw [foldl_score_eq]

/-! ### Monotonicity of the keyword score under appended content -/

theorem pyLower_data_append (a b : String) :
    (pyLower (a ++ b)).data = (pyLower a).data ++ (pyLower b).data := by
  unfold pyLower
  simp [String.data_append]

theorem specScore_le_append (query fn c e : String) :
    specScore query ⟨fn, c⟩ ≤ specScore query ⟨fn, c ++ e⟩ := by
  unfold specScore
  simp only
  rw [pyLower_data_append]
  apply Nat.add_le_add
  apply Nat.add_le_add
  · by_cases hp : substrB (pyLower query).data (pyLower c).data = true
    · rw [hp, substrB_append_right _ _ _ hp]
    · have : (if substrB (pyLower query).data (pyLower c).data then (50 : Nat) else 0) = 0 := by
        revert hp; cases substrB (pyLower query).data (pyLower c).data <;> simp
      rw [this]
      exact Nat.zero_le _
  · apply Nat.mul_le_mul_left
    apply List.sum_le_sum
    intro w _
    exact pyCount_le_append w (pyLower c).data (pyLower e).data
  · exact Nat.le_refl _

theorem searchScore_le_append (query fn c e : String) :
    searchScore query ⟨fn, c⟩ ≤ searchScore query ⟨fn, c ++ e⟩ := by
  rw [searchScore_eq_specScore, searchScore_eq_specScore]
  exact specScore_le_append query fn c e

/-- Claim C8, counterexample.  The claim says that adding one more occurrence
of a query word to a chunk never decreases its keyword score.  That is
false when the occurrence is inserted *inside* the content: for the query
`"cat dog"`, inserting the query word `"cat"` into the content
`"cat dog"` (giving `"cat " ++ "cat" ++ "dog" = "cat catdog"`) raises the
count of `"cat"` from 1 to 2 but destroys the 50-point exact-phrase
bonus, and the score drops from 60 to 15. -/
theorem simple_search_score_insertion_counterexample :
    ("cat catdog" : String) = "cat " ++ "cat" ++ "dog"
      ∧ ("cat dog" : String) = "cat " ++ "dog"
      ∧ pyCount "cat".data "cat catdog".data = pyCount "cat".data "cat dog".data + 1
      ∧ pyCount "dog".data "cat catdog".data = pyCount "dog".data "cat dog".data
      ∧ searchScore "cat dog" ⟨"notes.txt", "cat catdog"⟩
          < searchScore "cat dog" ⟨"notes.txt", "cat dog"⟩ := by
  refine ⟨by decide, by decide, by decide, by decide, by decide⟩

/-- Claim C8, amended.  Appending material (in particular an additional
occurrence of a query word) to the *end* of the content of a chunk never
decreases the keyword score computed by `simple_search`, and it never
lowers the score-ordering of that chunk relative to a chunk whose content
is unchanged; but an occurrence inserted in the middle of the content can
break the exact-phrase bonus and decrease the score (see the
counterexample). -/
theorem searchScore_monotone_append (query fn c e : String) (B : Doc)
    (hB : searchScore query B ≤ searchScore query ⟨fn, c⟩) :
    searchScore query ⟨fn, c⟩ ≤ searchScore query ⟨fn, c ++ e⟩
      ∧ searchScore query B ≤ searchScore query ⟨fn, c ++ e⟩ := by
  have h := searchScore_le_append query fn c e
  exact ⟨h, le_trans hB h⟩

/-- Witness for `searchScore_monotone_append` at concrete inputs: the
chunk `"cat dog"` with `" cat"` appended keeps (here: increases) its
score, and stays at least as high as the unchanged chunk `B`. -/
theorem searchScore_monotone_append_witness :
    searchScore "cat dog" ⟨"notes.txt", "cat dog"⟩
        ≤ searchScore "cat dog" ⟨"notes.txt", "cat dog" ++ " cat"⟩
      ∧ searchScore "cat dog" ⟨"b.txt", "dog dog dog cat"⟩
        ≤ searchScore "cat dog" ⟨"notes.txt", "cat dog" ++ " cat"⟩ :=
  searchScore_monotone_append "cat dog" "notes.txt" "cat dog" " cat"
    ⟨"b.txt", "dog dog dog cat"⟩ (by decide)

/-! ### C2: `simple_search` refines the specified keyword scoring -/

instance : IsTotal ScoredDoc (fun a b => b.score ≤ a.score) :=
  ⟨fun a b => Nat.le_total b.score a.score⟩

instance : IsTrans ScoredDoc (fun a b => b.score ≤ a.score) :=
  ⟨fun _ _ _ hab hbc => Nat.le_trans hbc hab⟩

instance : IsTotal (Doc × Nat) (fun a b => b.2 ≤ a.2) :=
  ⟨fun a b => Nat.le_total b.2 a.2⟩

instance : IsTrans (Doc × Nat) (fun a b => b.2 ≤ a.2) :=
  ⟨fun _ _ _ hab hbc => Nat.le_trans hbc hab⟩

theorem map_insertionSort_proj (l : List ScoredDoc) :
    (l.insertionSort (fun a b => b.score ≤ a.score)).map (fun x => (x.doc, x.score))
      = (l.map (fun x => (x.doc, x.score))).insertionSort (fun a b => b.2 ≤ a.2) :=
  List.map_insertionSort (fun a b => b.score ≤ a.score) (fun a b => b.2 ≤ a.2)
    (fun x => (x.doc, x.score)) l (fun _ _ _ _ => Iff.rfl)

theorem filterMap_scored_map_proj (query : String) :
    ∀ docs : List Doc,
      (docs.filterMap
          (fun doc =>
            if searchScore query doc > 0 then
              some (⟨doc, searchScore query doc,
                get_snippet doc.content
                  ((splitWs (pyLower query).data).filter (fun w => w.length > 2))⟩ : ScoredDoc)
            else none)).map (fun x => (x.doc, x.score))
        = (docs.map (fun d => (d, specScore query d))).filter (fun p => p.2 > 0) := by
  intro docs
  induction docs with
  | nil => rfl
  | cons d rest ih =>
    simp only [List.filterMap_cons, List.map_cons, List.filter_cons, decide_eq_true_eq]
    by_cases hp : searchScore query d > 0
    · have hp2 : specScore query d > 0 := by rw [← searchScore_eq_specScore]; exact hp
      rw [if_pos hp]
      simp only [List.map_cons, ih]
      rw [if_pos hp2, searchScore_eq_specScore query d]
    · have hp2 : ¬ specScore query d > 0 := by rw [← searchScore_eq_specScore]; exact hp
      rw [if_neg hp, if_neg hp2]
      exact ih

/-- Claim C2.  In keyword-only mode, `simple_search` computes exactly the
retrieval described by the spec: projected to (chunk, score) pairs it
equals `specSearch` — per-chunk score `50·[phrase] + 5·Σ word counts +
10·#{words in filename}` over lowercased query words of length > 2,
zero-score chunks discarded, stable descending sort, first `limit`
returned — and the returned list is sorted by descending score and has at
most `limit` entries. -/
theorem simple_search_refines_spec (query : String) (documents : List Doc) (limit : Nat) :
    (simple_search query documents limit).map (fun x => (x.doc, x.score))
        = specSearch query documents limit
      ∧ List.Sorted (fun a b => b.score ≤ a.score) (simple_search query documents limit)
      ∧ (simple_search query documents limit).length ≤ limit := by
  refine ⟨?_, ?_, ?_⟩
  · by_cases hd : documents.isEmpty = true
    · have hd2 : documents = [] := by simpa using hd
      subst hd2
      simp [simple_search, specSearch]
    · have hdf : documents.isEmpty = false := by
        revert hd; cases documents.isEmpty <;> simp
      unfold simple_search specSearch
      simp only [hdf, Bool.false_eq_true, if_false]
      rw [List.map_take, map_insertionSort_proj, filterMap_scored_map_proj query]
  · unfold simple_search
    by_cases hd : documents.isEmpty = true
    · simp only [hd, if_true]
      exact List.sorted_nil
    · have hdf : documents.isEmpty = false := by
        revert hd; cases documents.isEmpty <;> simp
      simp only [hdf, Bool.false_eq_true, if_false]
      have hsorted := List.sorted_insertionSort (fun (a b : ScoredDoc) => b.score ≤ a.score)
        (documents.filterMap
          (fun doc =>
            let score := searchScore query doc
            if score > 0 then
              some (⟨doc, score,
                get_snippet doc.content
                  ((splitWs (pyLower query).data).filter (fun w => w.length > 2))⟩ : ScoredDoc)
            else none))
      exact hsorted.sublist (List.take_sublist _ _)
  · unfold simple_search
    by_cases hd : documents.isEmpty = true
    · simp [hd]
    · have hdf : documents.isEmpty = false := by
        revert hd; cases documents.isEmpty <;> simp
      simp only [hdf, Bool.false_eq_true, if_false]
      exact List.length_take_le _ _

/-! ### Reduction lemmas for the safe orchestrator -/

theorem get_answer_gen_case (question : String) (documents : List Doc) (libOk apiKey : Bool)
    (backend : String → String → GenOutcome)
    (hq : pyStrip question ≠ "") (hd : documents.isEmpty = false)
    (hr : (simple_search (pyStrip question) documents 3).isEmpty = false) :
    get_answer question documents libOk apiKey backend
      = (let ai := get_ai_response libOk apiKey backend
            (safeContext (simple_search (pyStrip question) documents 3)) (pyStrip question)
         if ai.1 ≠ "" ∧ strStarts ai.1 "❌" = false ∧
             strStarts ai.1 "🤖 AI service is currently busy" = false then
           (ai.1, Event.retrieve (pyStrip question) 3 :: ai.2)
         else
           ("🤖 AI assistant is currently unavailable. Here\x27s what I found in the documents:\n\n"
               ++ search_documents_only (pyStrip question) documents 3,
             (Event.retrieve (pyStrip question) 3 :: ai.2)
               ++ [Event.retrieve (pyStrip question) 3])) := by
  simp only [get_answer]
  rw [if_neg hq, if_neg (by simp [hd]), if_neg (by simp [hr])]

theorem get_ai_response_all_quota (backend : String → String → GenOutcome) (ctx q : String)
    (hall : ∀ m p, ∃ msg, backend m p = GenOutcome.err msg ∧ isQuotaSafe msg = true) :
    get_ai_response true true backend ctx q
      = ("🤖 AI service is currently busy. Here\x27s what I found in the documents instead.",
         [Event.generate "gemini-1.5-flash", Event.generate "gemini-1.5-pro",
          Event.generate "gemini-pro"]) := by
  obtain ⟨m1, hb1, hq1⟩ := hall "gemini-1.5-flash" (safePrompt ctx q)
  obtain ⟨m2, hb2, hq2⟩ := hall "gemini-1.5-pro" (safePrompt ctx q)
  obtain ⟨m3, hb3, hq3⟩ := hall "gemini-pro" (safePrompt ctx q)
  have hne1 : ("gemini-1.5-flash" : String) ≠ "gemini-pro" := by decide
  have hne2 : ("gemini-1.5-pro" : String) ≠ "gemini-pro" := by decide
  show get_ai_response_loop backend (models_to_try.getLastD "") (safePrompt ctx q) models_to_try
    = _
  have hlast : models_to_try.getLastD "" = "gemini-pro" := by decide
  rw [hlast]
  show get_ai_response_loop backend "gemini-pro" (safePrompt ctx q)
    ["gemini-1.5-flash", "gemini-1.5-pro", "gemini-pro"] = _
  rw [get_ai_response_loop, hb1]
  simp only [hq1, if_true, if_pos hne1]
  rw [get_ai_response_loop, hb2]
  simp only [hq2, if_true, if_pos hne2]
  rw [get_ai_response_loop, hb3]
  simp only [hq3, if_true]
  rw [if_neg (by simp)]

/-- Claim C1.  For every non-blank question, `get_answer` of
`rag_agent_safe.py` returns a non-empty string — whatever the corpus,
environment flags and generation backend do, every internal failure path
(missing library, missing key, quota errors on all tiers, empty or
error-prefixed generations, empty retrieval) resolves to a returned
string.  The embedding is a total function, so no exception can
propagate. -/
theorem get_answer_nonblank_nonempty (question : String) (documents : List Doc)
    (libOk apiKey : Bool) (backend : String → String → GenOutcome)
    (h : pyStrip question ≠ "") :
    (get_answer question documents libOk apiKey backend).1 ≠ "" := by
  simp only [get_answer]
  rw [if_neg h]
  by_cases hd : documents.isEmpty = true
  · rw [if_pos hd]
    decide
  · rw [if_neg hd]
    by_cases hr : (simple_search (pyStrip question) documents 3).isEmpty = true
    · rw [if_pos hr]
      exact strAppend_ne_empty_left _ _ (strAppend_ne_empty_left _ _ (by decide))
    · rw [if_neg hr]
      by_cases hacc : (get_ai_response libOk apiKey backend
            (safeContext (simple_search (pyStrip question) documents 3))
            (pyStrip question)).1 ≠ "" ∧
          strStarts (get_ai_response libOk apiKey backend
            (safeContext (simple_search (pyStrip question) documents 3))
            (pyStrip question)).1 "❌" = false ∧
          strStarts (get_ai_response libOk apiKey backend
            (safeContext (simple_search (pyStrip question) documents 3))
            (pyStrip question)).1 "🤖 AI service is currently busy" = false
      · rw [if_pos hacc]
        exact hacc.1
      · rw [if_neg hacc]
        exact strAppend_ne_empty_left _ _ (by decide)

/-- Witness for `get_answer_nonblank_nonempty` at a concrete non-blank
question, corpus and (all-quota) backend. -/
theorem get_answer_nonblank_nonempty_witness :
    (get_answer "password reset" [⟨"faq.txt", "To reset your password open settings."⟩]
        true true (fun _ _ => GenOutcome.err "429 quota exceeded")).1 ≠ "" :=
  get_answer_nonblank_nonempty "password reset"
    [⟨"faq.txt", "To reset your password open settings."⟩] true true
    (fun _ _ => GenOutcome.err "429 quota exceeded") (by decide)

/-- Claim C6.  For every blank or whitespace-only question, `get_answer`
of `rag_agent_safe.py` returns the validation message and performs no
retrieval and no generation call: the event trace is empty, and the
result does not depend on the corpus, the environment flags or the
backend. -/
theorem get_answer_blank_validation (question : String) (documents : List Doc)
    (libOk apiKey : Bool) (backend : String → String → GenOutcome)
    (h : pyStrip question = "") :
    get_answer question documents libOk apiKey backend
      = ("❌ Please ask a valid question.", []) := by
  unfold get_answer
  rw [if_pos h]

/-- Witness for `get_answer_blank_validation` on a whitespace-only
question. -/
theorem get_answer_blank_validation_witness :
    get_answer "  \t \n " [⟨"faq.txt", "Some content."⟩] true true
        (fun _ _ => GenOutcome.ok "never used")
      = ("❌ Please ask a valid question.", []) :=
  get_answer_blank_validation "  \t \n " [⟨"faq.txt", "Some content."⟩] true true
    (fun _ _ => GenOutcome.ok "never used") (by decide)

/-- Claim C7.  On an empty corpus, `get_answer` of `rag_agent_safe.py`
answers every non-blank question with the "no documents" fallback message
and an empty event trace (so no generation call is attempted), and
`simple_search` on an empty corpus returns the empty result rather than
an error. -/
theorem get_answer_empty_corpus (question q2 : String) (libOk apiKey : Bool)
    (backend : String → String → GenOutcome) (limit : Nat)
    (h : pyStrip question ≠ "") :
    get_answer question [] libOk apiKey backend
        = ("❌ No documents available. Please ensure text files are in the data directory.", [])
      ∧ simple_search q2 [] limit = [] := by
  constructor
  · simp only [get_answer]
    rw [if_neg h]
    simp
  · rfl

/-- Witness for `get_answer_empty_corpus` at a concrete question. -/
theorem get_answer_empty_corpus_witness :
    get_answer "How do I reset my password?" [] true true
          (fun _ _ => GenOutcome.ok "never used")
        = ("❌ No documents available. Please ensure text files are in the data directory.", [])
      ∧ simple_search "anything" [] 3 = [] :=
  get_answer_empty_corpus "How do I reset my password?" "anything" true true
    (fun _ _ => GenOutcome.ok "never used") 3 (by decide)

/-- Two successive `answer` calls of one session, with the corpus and the
(deterministic) backend unchanged between them.  The source keeps no
state across calls — `load_documents` is a cached pure read and every
other input is passed in — so the embedding threads the same arguments to
both calls. -/
def answer_twice (question : String) (documents : List Doc) (libOk apiKey : Bool)
    (backend : String → String → GenOutcome) : String × String :=
  ((get_answer question documents libOk apiKey backend).1,
   (get_answer question documents libOk apiKey backend).1)

/-- Claim C9.  `get_answer` is deterministic: calling it twice with an
unchanged corpus and a deterministic (mocked) backend yields identical
output strings.  In the embedding all inputs of a call are explicit, so
the two calls are literally the same computation. -/
theorem answer_twice_idempotent (question : String) (documents : List Doc)
    (libOk apiKey : Bool) (backend : String → String → GenOutcome) :
    (answer_twice question documents libOk apiKey backend).1
      = (answer_twice question documents libOk apiKey backend).2 := rfl

/-- Claim C3.  If every configured generation tier fails with a
quota/rate-limit-classified error, `get_answer` of `rag_agent_safe.py`
returns the document fallback: the busy sentinel produced by the tier
loop is rejected, and the answer is exactly the fallback marker followed
by the formatted top-3 retrieval results — it starts with the marker and
contains the whole `search_documents_only` listing, and no generated text
exists to be returned. -/
theorem get_answer_all_quota_fallback (question : String) (documents : List Doc)
    (backend : String → String → GenOutcome)
    (hq : pyStrip question ≠ "") (hd : documents.isEmpty = false)
    (hr : (simple_search (pyStrip question) documents 3).isEmpty = false)
    (hall : ∀ m p, ∃ msg, backend m p = GenOutcome.err msg ∧ isQuotaSafe msg = true) :
    (get_answer question documents true true backend).1
        = "🤖 AI assistant is currently unavailable. Here\x27s what I found in the documents:\n\n"
          ++ search_documents_only (pyStrip question) documents 3
      ∧ strStarts (get_answer question documents true true backend).1
          "🤖 AI assistant is currently unavailable." = true
      ∧ strInfix (search_documents_only (pyStrip question) documents 3)
          (get_answer question documents true true backend).1 = true := by
  have hred := get_answer_gen_case question documents true true backend hq hd hr
  have hai := get_ai_response_all_quota backend
    (safeContext (simple_search (pyStrip question) documents 3)) (pyStrip question) hall
  rw [hai] at hred
  simp only at hred
  have hcond : ¬ (("🤖 AI service is currently busy. Here\x27s what I found in the documents instead." : String) ≠ ""
      ∧ strStarts "🤖 AI service is currently busy. Here\x27s what I found in the documents instead." "❌" = false
      ∧ strStarts "🤖 AI service is currently busy. Here\x27s what I found in the documents instead."
          "🤖 AI service is currently busy" = false) := by
    rintro ⟨-, -, h3⟩
    rw [show strStarts "🤖 AI service is currently busy. Here\x27s what I found in the documents instead."
        "🤖 AI service is currently busy" = true from by decide] at h3
    exact absurd h3 (by decide)
  rw [if_neg hcond] at hred
  rw [hred]
  refine ⟨rfl, ?_, ?_⟩
  · exact strStarts_append_of_strStarts _ _ _ (by decide)
  · exact strInfix_append_left _ _

/-- Witness for `get_answer_all_quota_fallback`: a one-document corpus
and a backend whose every call raises a quota error. -/
theorem get_answer_all_quota_fallback_witness :
    (get_answer "password reset" [⟨"faq.txt", "To reset your password open settings."⟩]
          true true (fun _ _ => GenOutcome.err "429 quota exceeded")).1
        = "🤖 AI assistant is currently unavailable. Here\x27s what I found in the documents:\n\n"
          ++ search_documents_only (pyStrip "password reset")
              [⟨"faq.txt", "To reset your password open settings."⟩] 3
      ∧ strStarts (get_answer "password reset"
            [⟨"faq.txt", "To reset your password open settings."⟩]
            true true (fun _ _ => GenOutcome.err "429 quota exceeded")).1
          "🤖 AI assistant is currently unavailable." = true
      ∧ strInfix (search_documents_only (pyStrip "password reset")
            [⟨"faq.txt", "To reset your password open settings."⟩] 3)
          (get_answer "password reset" [⟨"faq.txt", "To reset your password open settings."⟩]
            true true (fun _ _ => GenOutcome.err "429 quota exceeded")).1 = true :=
  get_answer_all_quota_fallback "password reset"
    [⟨"faq.txt", "To reset your password open settings."⟩]
    (fun _ _ => GenOutcome.err "429 quota exceeded")
    (by decide) (by decide) (by decide)
    (fun _ _ => ⟨"429 quota exceeded", rfl, by decide⟩)

/-- Claim C10.  Generation success is decided by a sentinel-prefix check:
whenever the tier loop returns a string starting with `"❌"` or with the
busy marker, `get_answer` of `rag_agent_safe.py` discards it and returns
the document-search fallback instead — even when that string was a
legitimate generated answer that merely begins with `"❌"` (see the
witness). -/
theorem get_answer_sentinel_discard (question : String) (documents : List Doc)
    (backend : String → String → GenOutcome)
    (hq : pyStrip question ≠ "") (hd : documents.isEmpty = false)
    (hr : (simple_search (pyStrip question) documents 3).isEmpty = false)
    (hstart :
      strStarts (get_ai_response true true backend
          (safeContext (simple_search (pyStrip question) documents 3))
          (pyStrip question)).1 "❌" = true
        ∨ strStarts (get_ai_response true true backend
            (safeContext (simple_search (pyStrip question) documents 3))
            (pyStrip question)).1 "🤖 AI service is currently busy" = true) :
    (get_answer question documents true true backend).1
        = "🤖 AI assistant is currently unavailable. Here\x27s what I found in the documents:\n\n"
          ++ search_documents_only (pyStrip question) documents 3
      ∧ (get_answer question documents true true backend).1
          ≠ (get_ai_response true true backend
              (safeContext (simple_search (pyStrip question) documents 3))
              (pyStrip question)).1 := by
  have hred := get_answer_gen_case question documents true true backend hq hd hr
  simp only at hred
  have hcond : ¬ ((get_ai_response true true backend
        (safeContext (simple_search (pyStrip question) documents 3))
        (pyStrip question)).1 ≠ ""
      ∧ strStarts (get_ai_response true true backend
          (safeContext (simple_search (pyStrip question) documents 3))
          (pyStrip question)).1 "❌" = false
      ∧ strStarts (get_ai_response true true backend
          (safeContext (simple_search (pyStrip question) documents 3))
          (pyStrip question)).1 "🤖 AI service is currently busy" = false) := by
    rintro ⟨-, h2, h3⟩
    rcases hstart with hs | hs
    · rw [hs] at h2; exact absurd h2 (by decide)
    · rw [hs] at h3; exact absurd h3 (by decide)
  rw [if_neg hcond] at hred
  rw [hred]
  refine ⟨rfl, ?_⟩
  intro heq
  rcases hstart with hs | hs
  · have hres : ("🤖 AI assistant is currently unavailable. Here\x27s what I found in the documents:\n\n"
          ++ search_documents_only (pyStrip question) documents 3).data[0]? = some '🤖' :=
      data_getElem?_of_strStarts _ _ 0 '🤖'
        (strStarts_append_self _ _) (by decide)
    have hai0 := data_getElem?_of_strStarts _ _ 0 '❌' hs (by decide)
    have := congrArg (fun s : String => s.data[0]?) heq
    simp only at this
    rw [hres, hai0] at this
    exact absurd this (by decide)
  · have hres : ("🤖 AI assistant is currently unavailable. Here\x27s what I found in the documents:\n\n"
          ++ search_documents_only (pyStrip question) documents 3).data[5]? = some 'a' :=
      data_getElem?_of_strStarts _ _ 5 'a'
        (strStarts_append_self _ _) (by decide)
    have hai5 := data_getElem?_of_strStarts _ _ 5 's' hs (by decide)
    have := congrArg (fun s : String => s.data[5]?) heq
    simp only at this
    rw [hres, hai5] at this
    exact absurd this (by decide)

/-- Witness for `get_answer_sentinel_discard`: the first tier *succeeds*
with the legitimate answer `"❌ means the reset failed."`, yet the answer
returned is the document fallback, not that text. -/
theorem get_answer_sentinel_discard_witness :
    (get_answer "password reset" [⟨"faq.txt", "To reset your password open settings."⟩]
          true true (fun _ _ => GenOutcome.ok "❌ means the reset failed.")).1
        = "🤖 AI assistant is currently unavailable. Here\x27s what I found in the documents:\n\n"
          ++ search_documents_only (pyStrip "password reset")
              [⟨"faq.txt", "To reset your password open settings."⟩] 3
      ∧ (get_answer "password reset" [⟨"faq.txt", "To reset your password open settings."⟩]
            true true (fun _ _ => GenOutcome.ok "❌ means the reset failed.")).1
          ≠ (get_ai_response true true (fun _ _ => GenOutcome.ok "❌ means the reset failed.")
              (safeContext (simple_search (pyStrip "password reset")
                [⟨"faq.txt", "To reset your password open settings."⟩] 3))
              (pyStrip "password reset")).1 :=
  get_answer_sentinel_discard "password reset"
    [⟨"faq.txt", "To reset your password open settings."⟩]
    (fun _ _ => GenOutcome.ok "❌ means the reset failed.")
    (by decide) (by decide) (by decide) (Or.inl (by decide))

/-- Reduction of the tier loop of `rag_agent_safe.py` when the first
model answers with non-empty text. -/
theorem get_ai_response_first_ok (backend : String → String → GenOutcome) (ctx q t : String)
    (hb : ∀ p, backend "gemini-1.5-flash" p = GenOutcome.ok t) (ht : t ≠ "") :
    get_ai_response true true backend ctx q = (t, [Event.generate "gemini-1.5-flash"]) := by
  show get_ai_response_loop backend (models_to_try.getLastD "") (safePrompt ctx q) models_to_try
    = _
  rw [show models_to_try.getLastD "" = "gemini-pro" from by decide]
  show get_ai_response_loop backend "gemini-pro" (safePrompt ctx q)
    ["gemini-1.5-flash", "gemini-1.5-pro", "gemini-pro"] = _
  rw [get_ai_response_loop, hb (safePrompt ctx q)]
  simp only [if_neg ht]

/-- Claim C4, counterexample.  The claim says a successful non-empty first
generation is returned *with leading and trailing whitespace trimmed*.
In `rag_agent_safe.py` the text is returned verbatim: with the first tier
succeeding with `" Use settings. "`, `get_answer` returns exactly
`" Use settings. "`, which differs from its trimmed form. -/
theorem get_answer_first_ok_untrimmed_counterexample :
    (get_answer "password" [⟨"notes.txt", "password reset guide"⟩] true true
          (fun _ _ => GenOutcome.ok " Use settings. ")).1 = " Use settings. "
      ∧ (get_answer "password" [⟨"notes.txt", "password reset guide"⟩] true true
            (fun _ _ => GenOutcome.ok " Use settings. ")).1
          ≠ pyStrip " Use settings. " := by
  refine ⟨by decide, by decide⟩

/-- Claim C4, amended.  In `rag_agent.py`, a first generation attempt that
succeeds returns exactly the trimmed text with no fallback prefix; in
`rag_agent_safe.py`, a first generation attempt that succeeds with
non-empty text that does not start with the `"❌"`/busy sentinels is
returned *verbatim* (no trimming, no fallback prefix, no other
modification). -/
theorem get_answer_first_ok_amended :
    (∀ (backend : Nat → GenOutcome) (fb t : String),
        backend 0 = GenOutcome.ok t → rag_get_answer backend fb = pyStrip t)
      ∧ (∀ (question : String) (documents : List Doc)
            (backend : String → String → GenOutcome) (t : String),
          (∀ p, backend "gemini-1.5-flash" p = GenOutcome.ok t) → t ≠ "" →
          strStarts t "❌" = false →
          strStarts t "🤖 AI service is currently busy" = false →
          pyStrip question ≠ "" → documents.isEmpty = false →
          (simple_search (pyStrip question) documents 3).isEmpty = false →
          (get_answer question documents true true backend).1 = t) := by
  constructor
  · intro backend fb t hb
    unfold rag_get_answer
    rw [hb]
  · intro question documents backend t hb ht h1 h2 hq hd hr
    have hred := get_answer_gen_case question documents true true backend hq hd hr
    have hai := get_ai_response_first_ok backend
      (safeContext (simple_search (pyStrip question) documents 3)) (pyStrip question) t hb ht
    rw [hai] at hred
    simp only at hred
    rw [if_pos ⟨ht, h1, h2⟩] at hred
    rw [hred]

/-- Witness for `get_answer_first_ok_amended` at concrete inputs:
`rag_agent.py` trims `" polite answer "`, while `rag_agent_safe.py`
returns `" Use settings. "` verbatim. -/
theorem get_answer_first_ok_amended_witness :
    rag_get_answer (fun _ => GenOutcome.ok " polite answer ") "unused fallback"
        = pyStrip " polite answer "
      ∧ (get_answer "password" [⟨"notes.txt", "password reset guide"⟩] true true
            (fun _ _ => GenOutcome.ok " Use settings. ")).1 = " Use settings. " :=
  ⟨get_answer_first_ok_amended.1 (fun _ => GenOutcome.ok " polite answer ")
      "unused fallback" " polite answer " rfl,
   get_answer_first_ok_amended.2 "password" [⟨"notes.txt", "password reset guide"⟩]
      (fun _ _ => GenOutcome.ok " Use settings. ") " Use settings. "
      (fun _ => rfl) (by decide) (by decide) (by decide) (by decide) (by decide) (by decide)⟩

/-- Recogniser for `time.sleep` events in a trace. -/
def isSleepEvent : Event → Bool
  | Event.sleep _ => true
  | _ => false

/-- Claim C5, counterexample.  The claim says that on a quota-classified
failure with a tier remaining the orchestrator waits a 2-unit backoff
before advancing.  The tier loop of `rag_agent_safe.py`
(`get_ai_response`) advances to the next model immediately: with the
first model quota-limited and the second succeeding, the trace holds the
two generation calls with *no* sleep between them. -/
theorem safe_tier_advance_no_backoff_counterexample :
    get_ai_response true true
          (fun m _ => if m = "gemini-1.5-flash" then GenOutcome.err "quota exceeded"
            else GenOutcome.ok "answer") "ctx" "q"
        = ("answer", [Event.generate "gemini-1.5-flash", Event.generate "gemini-1.5-pro"])
      ∧ (get_ai_response true true
            (fun m _ => if m = "gemini-1.5-flash" then GenOutcome.err "quota exceeded"
              else GenOutcome.ok "answer") "ctx" "q").2.filter isSleepEvent = [] := by
  refine ⟨by decide, by decide⟩

/-- Claim C5, amended.  In the robust/cloud orchestrators
(`rag_agent_robust.py`, `rag_agent_cloud.py`) the claim holds: a
quota-classified failure with a lower-priority tier remaining sleeps 2
time units and advances, and when no tier remains the document fallback
is returned with no further waiting — with both configured tiers
quota-limited the trace is exactly generate/sleep-2/generate and the
busy-prefixed fallback is returned.  The safe variant, by contrast,
advances between tiers with no backoff at all (see the counterexample). -/
theorem robust_get_answer_quota_backoff (question m0 m1 fb : String)
    (hq : pyStrip question ≠ "")
    (h0 : isQuotaRobust m0 = true) (h1 : isQuotaRobust m1 = true) :
    robust_get_answer question true ["gemini-1.5-flash", "gemini-1.5-pro"] 2
        (fun i => if i = 0 then GenOutcome.err m0 else GenOutcome.err m1) fb
      = ("🤖 AI services are currently busy. Here\x27s what I found in the documents:\n\n" ++ fb,
         [Event.generate "gemini-1.5-flash", Event.sleep 2,
          Event.generate "gemini-1.5-pro"]) := by
  unfold robust_get_answer
  rw [if_neg hq, if_neg (by decide)]
  show robustLoop ["gemini-1.5-flash", "gemini-1.5-pro"] 2
      (fun i => if i = 0 then GenOutcome.err m0 else GenOutcome.err m1) fb (2 + 1) 0 = _
  rw [robustLoop]
  simp only [reduceIte, h0, if_pos trivial, if_true]
  rw [robustLoop]
  simp [h1]

/-- Witness for `robust_get_answer_quota_backoff` at concrete quota
messages and fallback text. -/
theorem robust_get_answer_quota_backoff_witness :
    robust_get_answer "How do I reset my password?" true
        ["gemini-1.5-flash", "gemini-1.5-pro"] 2
        (fun i => if i = 0 then GenOutcome.err "429 resource_exhausted"
          else GenOutcome.err "Rate limit reached for requests") "DOCS"
      = ("🤖 AI services are currently busy. Here\x27s what I found in the documents:\n\n"
            ++ "DOCS",
         [Event.generate "gemini-1.5-flash", Event.sleep 2,
          Event.generate "gemini-1.5-pro"]) :=
  robust_get_answer_quota_backoff "How do I reset my password?"
    "429 resource_exhausted" "Rate limit reached for requests" "DOCS"
    (by decide) (by decide) (by decide)
